import Mathlib

/-!
Verification of the awareguard-backend business logic: quiz scoring
(controllers/quizController.js), XP/level/streak bookkeeping and the
subscription state machine (models/User.js, models/UserProgress.js), the
module-completion route and the leaderboard (routes/learning.js), and the
read-time subscription-status route (routes/payments.js).

Times (JS Date values) are embedded as integer milliseconds.  JS number
division on the quiz path is embedded as exact rational division; the
NaN produced by 0/0 is embedded as the value none.
-/

namespace AwareGuard

/-- Milliseconds since the epoch, standing in for a JS Date. -/
abbrev Millis := Int

/-! ## Quiz data model (models/Quiz.js) -/

/-- One entry of the incorrectExplanations array of a question. -/
structure IncorrectExplanation where
  optionIndex : Nat
  explanation : Option String
deriving DecidableEq

/-- A quiz question document (fields used by grading). -/
structure QuizQuestion where
  questionId : String
  moduleId : String
  correctAnswer : Nat
  points : Option Nat
  correctExplanation : Option String
  incorrectExplanations : List IncorrectExplanation
deriving DecidableEq

/-- One submitted answer in a quiz submission. -/
structure SubmittedAnswer where
  questionId : String
  selectedOption : Nat
deriving DecidableEq

/-- One graded answer, as pushed onto answeredQuestions by scoreQuiz. -/
structure GradedAnswer where
  questionId : String
  selectedOption : Nat
  correct : Bool
  points : Nat
  explanation : Option String
deriving DecidableEq

/-- One entry of the feedback view returned by scoreQuiz. -/
structure FeedbackEntry where
  questionId : String
  correct : Bool
  explanation : Option String
deriving DecidableEq

/-- The value of the result object of scoreQuiz.  percentage is none exactly
when the JS computation produced NaN (the 0/0 case). -/
structure ScoreResult where
  score : Nat
  totalPoints : Nat
  percentage : Option Int
  passed : Bool
  xpEarned : Nat
  answers : List GradedAnswer
  feedback : List FeedbackEntry
deriving DecidableEq

/-- JS Math.round on a nonnegative finite value: floor(x + 1/2). -/
def mathRound (x : ℚ) : Int := ⌊x + 1/2⌋

/-- The JS expression question.points || 10 (0 and a missing field are
falsy, so both fall back to 10). -/
def pointsForQuestion (q : QuizQuestion) : Nat :=
  match q.points with
  | none => 10
  | some 0 => 10
  | some p => p

/-- questions.find(q => q.questionId === answer.questionId). -/
def findQuestion (questions : List QuizQuestion) (qid : String) : Option QuizQuestion :=
  questions.find? (fun q => q.questionId == qid)

/-- The grading loop of scoreQuiz: returns
(totalPoints, earnedPoints, answeredQuestions).  An answer whose
questionId is not in the bank is skipped (the continue branch). -/
def gradeAnswers (questions : List QuizQuestion) :
    List SubmittedAnswer → Nat × Nat × List GradedAnswer
  | [] => (0, 0, [])
  | a :: rest =>
    match findQuestion questions a.questionId with
    | none => gradeAnswers questions rest
    | some q =>
      let isCorrect := q.correctAnswer == a.selectedOption
      let pts := pointsForQuestion q
      let r := gradeAnswers questions rest
      (pts + r.1, (if isCorrect then pts else 0) + r.2.1,
        { questionId := a.questionId
          selectedOption := a.selectedOption
          correct := isCorrect
          points := pts
          explanation :=
            if isCorrect then q.correctExplanation
            else ((q.incorrectExplanations.find?
                    (fun e => e.optionIndex == a.selectedOption)).bind
                  (fun e => e.explanation)) } :: r.2.2)

/-- scoreQuiz (controllers/quizController.js).  Throws (error) when the
module has no questions; otherwise grades the answers, computes
percentage = Math.round((earnedPoints / totalPoints) * 100) — none when
totalPoints = 0, where JS yields NaN — passed = percentage >= 70 (false
on NaN), and xpEarned = 15 on pass. -/
def scoreQuiz (questions : List QuizQuestion) (userAnswers : List SubmittedAnswer) :
    Except String ScoreResult :=
  if questions.isEmpty then .error "Quiz not found"
  else
    let r := gradeAnswers questions userAnswers
    let totalPoints := r.1
    let earnedPoints := r.2.1
    let answeredQuestions := r.2.2
    let percentage : Option Int :=
      if totalPoints = 0 then none
      else some (mathRound ((earnedPoints : ℚ) / (totalPoints : ℚ) * 100))
    let passed : Bool :=
      match percentage with
      | none => false
      | some p => decide ((70 : Int) ≤ p)
    .ok { score := earnedPoints
          totalPoints := totalPoints
          percentage := percentage
          passed := passed
          xpEarned := if passed then 15 else 0
          answers := answeredQuestions
          feedback := answeredQuestions.map
            (fun a => { questionId := a.questionId
                        correct := a.correct
                        explanation := a.explanation }) }

/-! ## User model (models/User.js) -/

/-- One paymentHistory entry. -/
structure PaymentRecord where
  reference : Option String
  amount : Int
  date : Millis
  status : String
  plan : Option String
deriving DecidableEq

/-- One quizHistory entry. -/
structure QuizHistoryEntry where
  quizId : String
  score : Nat
  totalQuestions : Nat
  date : Millis
deriving DecidableEq

/-- A User document (the full schema of models/User.js, with passwords
left to the auth collaborator). -/
structure User where
  name : Option String
  email : String
  provider : String
  role : String
  isPremium : Bool
  subscriptionPlan : String
  subscriptionExpiresAt : Option Millis
  subscriptionStartedAt : Option Millis
  paystackReference : Option String
  lastPaymentAmount : Int
  paymentHistory : List PaymentRecord
  totalXP : Nat
  level : Nat
  completedModules : List String
  streak : Nat
  lastActivity : Option Millis
  badges : List String
  perfectQuizzes : Nat
  quizHistory : List QuizHistoryEntry
deriving DecidableEq

/-- isSubscriptionActive: false unless isPremium, false unless
subscriptionExpiresAt is set, else now < expiresAt (strict). -/
def User.isSubscriptionActive (u : User) (now : Millis) : Bool :=
  if !u.isPremium then false
  else
    match u.subscriptionExpiresAt with
    | none => false
    | some t => decide (now < t)

/-- isSubscriptionExpired: false unless subscriptionExpiresAt is set,
else now > expiresAt (strict). -/
def User.isSubscriptionExpired (u : User) (now : Millis) : Bool :=
  match u.subscriptionExpiresAt with
  | none => false
  | some t => decide (t < now)

/-- checkAndDowngradePremium: if premium and expired, clear isPremium,
reset subscriptionPlan to none and clear subscriptionExpiresAt. -/
def User.checkAndDowngradePremium (u : User) (now : Millis) : User :=
  if u.isPremium && u.isSubscriptionExpired now then
    { u with isPremium := false
             subscriptionPlan := "none"
             subscriptionExpiresAt := none }
  else u

/-- calculateLevel: Math.floor(totalXP / 500) + 1. -/
def User.calculateLevel (u : User) : Nat :=
  u.totalXP / 500 + 1

/-- updateStreak: daysSince = Math.floor((now - lastActivity) / 86400000);
0 days leaves the record untouched, 1 day increments the streak, anything
else resets it to 1; lastActivity is stamped on every mutating branch. -/
def User.updateStreak (u : User) (now : Millis) : User :=
  match u.lastActivity with
  | none => { u with streak := 1, lastActivity := some now }
  | some last =>
    let daysSince := (now - last).fdiv 86400000
    if daysSince = 0 then u
    else if daysSince = 1 then
      { u with streak := u.streak + 1, lastActivity := some now }
    else
      { u with streak := 1, lastActivity := some now }

/-- addXP: totalXP += xpAmount, then level = calculateLevel(). -/
def User.addXP (u : User) (xpAmount : Nat) : User :=
  let u1 := { u with totalXP := u.totalXP + xpAmount }
  { u1 with level := u1.calculateLevel }

/-- completeModule: pushes moduleId and returns true when new, returns
false (already completed) when the list already contains it. -/
def User.completeModule (u : User) (moduleId : String) : Bool × User :=
  if !(u.completedModules.contains moduleId) then
    (true, { u with completedModules := u.completedModules ++ [moduleId] })
  else (false, u)

/-! ## UserProgress model (models/UserProgress.js) -/

/-- A UserProgress document, projected to the fields read or written by
the pre-save hook and the XP-award path (the embedded completedModules /
statistics subdocuments are not consulted by either). -/
structure UserProgress where
  userId : String
  totalXP : Nat
  level : Nat
  currentStreak : Nat
  updatedAt : Millis
deriving DecidableEq

/-- The pre-save hook: level = Math.floor(totalXP / 500) + 1 and
updatedAt = now, run on every persist. -/
def preSaveHook (p : UserProgress) (now : Millis) : UserProgress :=
  { p with level := p.totalXP / 500 + 1, updatedAt := now }

/-- awardQuizXP (controllers/quizController.js): totalXP += xpEarned,
then save, which runs the pre-save hook. -/
def awardQuizXP (p : UserProgress) (xpEarned : Nat) (now : Millis) : UserProgress :=
  preSaveHook { p with totalXP := p.totalXP + xpEarned } now

/-! ## Learning routes (routes/learning.js) -/

/-- One MODULES entry. -/
structure ModuleInfo where
  xp : Nat
  premium : Bool
  title : String
deriving DecidableEq

/-- The static MODULES table of routes/learning.js. -/
def MODULES : List (String × ModuleInfo) :=
  [ ("phishing-basics", ⟨10, false, "Phishing Awareness 101"⟩),
    ("password-security", ⟨12, false, "Password Security Essentials"⟩),
    ("job-scam", ⟨15, false, "Job Scam Detection"⟩),
    ("social-media-safety", ⟨12, false, "Social Media Security Essentials"⟩),
    ("online-shopping-security", ⟨10, false, "Online Shopping & Payment Security"⟩),
    ("social-engineering", ⟨25, true, "Social Engineering Tactics"⟩),
    ("identity-theft", ⟨20, true, "Identity Theft Prevention"⟩),
    ("advanced-phishing", ⟨25, true, "Advanced Phishing Detection"⟩),
    ("financial-fraud", ⟨30, true, "Financial Fraud & Investment Scams"⟩),
    ("mobile-security", ⟨20, true, "Mobile Device Security"⟩),
    ("corporate-security", ⟨35, true, "Corporate Security Best Practices"⟩),
    ("incident-response", ⟨40, true, "Incident Response & Recovery"⟩) ]

/-- MODULES[moduleId]. -/
def lookupModule (moduleId : String) : Option ModuleInfo :=
  (MODULES.find? (fun e => e.1 == moduleId)).map (fun e => e.2)

/-- The response classes of POST /api/learning/complete. -/
inductive CompleteResponse
  | missingModuleId
  | invalidModuleId
  | premiumRequired
  | alreadyCompleted
  | success (xpGained : Nat)
deriving DecidableEq

/-- POST /api/learning/complete, acting on an already-fetched user:
validates moduleId, looks it up in MODULES, gates premium modules on the
stored isPremium flag, rejects an already-completed module before any
mutation, and otherwise awards the table XP, marks the module completed,
updates the streak and saves. -/
def completeModuleRoute (u : User) (moduleId : String) (now : Millis) :
    CompleteResponse × User :=
  if moduleId = "" then (.missingModuleId, u)
  else
    match lookupModule moduleId with
    | none => (.invalidModuleId, u)
    | some m =>
      if m.premium && !u.isPremium then (.premiumRequired, u)
      else if u.completedModules.contains moduleId then (.alreadyCompleted, u)
      else
        let u1 := u.addXP m.xp
        let u2 := (u1.completeModule moduleId).2
        let u3 := u2.updateStreak now
        (.success m.xp, u3)

/-- The user fields projected by the leaderboard query. -/
structure LeaderboardUser where
  name : Option String
  totalXP : Nat
  level : Nat
  streak : Nat
  badges : List String
  lastActivity : Option Millis
deriving DecidableEq

/-- One leaderboard response entry. -/
structure LeaderboardEntry where
  rank : Nat
  name : Option String
  totalXP : Nat
  level : Nat
  streak : Nat
  badgeCount : Nat
deriving DecidableEq

/-- The lastActivity window filter built from the timeframe query
parameter: week and month require lastActivity >= now minus 7 resp. 30
days (a record with no lastActivity never matches a $gte filter); any
other timeframe applies no filter. -/
def inWindow (timeframe : String) (now : Millis) (u : LeaderboardUser) : Bool :=
  if timeframe = "week" then
    match u.lastActivity with
    | none => false
    | some t => decide (now - 7 * 24 * 60 * 60 * 1000 ≤ t)
  else if timeframe = "month" then
    match u.lastActivity with
    | none => false
    | some t => decide (now - 30 * 24 * 60 * 60 * 1000 ≤ t)
  else true

/-- The sort comparator of the leaderboard query: totalXP descending. -/
def xpDescLE (a b : LeaderboardUser) : Bool :=
  decide (b.totalXP ≤ a.totalXP)

/-- users.map((user, index) => ({ rank: index + 1, ... })), with the
fallback user.level || 1 from the source. -/
def rankUsers : Nat → List LeaderboardUser → List LeaderboardEntry
  | _, [] => []
  | i, u :: us =>
    { rank := i + 1
      name := u.name
      totalXP := u.totalXP
      level := if u.level = 0 then 1 else u.level
      streak := u.streak
      badgeCount := u.badges.length } :: rankUsers (i + 1) us

/-- GET /api/learning/leaderboard: maxLimit = min(limit, 100) with the
query default of 50, filter by the timeframe window, sort by totalXP
descending, truncate with .limit(maxLimit) and annotate 1-based ranks.
MongoDB treats .limit(0) as no limit at all, so a parsed limit of 0
returns every user passing the window filter. -/
def getLeaderboard (users : List LeaderboardUser) (timeframe : String)
    (limitParam : Option Nat) (now : Millis) : List LeaderboardEntry :=
  let maxLimit := min (limitParam.getD 50) 100
  let filtered := users.filter (inWindow timeframe now)
  let sorted := filtered.mergeSort xpDescLE
  let limited := if maxLimit = 0 then sorted else sorted.take maxLimit
  rankUsers 0 limited

/-! ## Subscription-status route (routes/payments.js) -/

/-- Math.ceil(a / b) for integer a and positive integer b. -/
def mathCeilDiv (a b : Int) : Int :=
  -((-a).fdiv b)

/-- The JSON body of GET /api/payments/subscription-status. -/
structure SubscriptionStatusResponse where
  isPremium : Bool
  subscriptionPlan : String
  subscriptionExpiresAt : Option Millis
  daysRemaining : Int
deriving DecidableEq

/-- GET /api/payments/subscription-status: if the user is premium with a
set expiry date that now has passed, only isPremium is cleared and the
user saved; daysRemaining is ceil((expiresAt - now) / 86400000) clamped
at 0.  Returns the saved user and the response body. -/
def subscriptionStatusRoute (u : User) (now : Millis) :
    User × SubscriptionStatusResponse :=
  let u1 :=
    if u.isPremium then
      match u.subscriptionExpiresAt with
      | some t => if t < now then { u with isPremium := false } else u
      | none => u
    else u
  let daysRemaining : Int :=
    if u1.isPremium then
      match u1.subscriptionExpiresAt with
      | some t => mathCeilDiv (t - now) 86400000
      | none => 0
    else 0
  (u1, { isPremium := u1.isPremium
         subscriptionPlan := u1.subscriptionPlan
         subscriptionExpiresAt := u1.subscriptionExpiresAt
         daysRemaining := max 0 daysRemaining })

/-! ## Sample records used to evaluate the definitions -/

/-- A question bank entry worth the explicit 10 points. -/
def sampleQ1 : QuizQuestion :=
  { questionId := "q1", moduleId := "m1", correctAnswer := 0,
    points := some 10, correctExplanation := some "well done",
    incorrectExplanations := [⟨1, some "option 1 is wrong"⟩] }

/-- A question bank entry with no stored points (defaults to 10). -/
def sampleQ2 : QuizQuestion :=
  { questionId := "q2", moduleId := "m1", correctAnswer := 1,
    points := none, correctExplanation := none,
    incorrectExplanations := [] }

/-- A fresh local user with all schema defaults. -/
def baseUser : User :=
  { name := some "u", email := "u@example.com", provider := "local",
    role := "user", isPremium := false, subscriptionPlan := "none",
    subscriptionExpiresAt := none, subscriptionStartedAt := none,
    paystackReference := none, lastPaymentAmount := 0, paymentHistory := [],
    totalXP := 0, level := 1, completedModules := [], streak := 0,
    lastActivity := none, badges := [], perfectQuizzes := 0,
    quizHistory := [] }

/-- A premium monthly user whose subscription expires at time 1000. -/
def premiumMonthlyUser : User :=
  { baseUser with
      isPremium := true
      subscriptionPlan := "monthly"
      subscriptionExpiresAt := some 1000 }

/-- A leaderboard projection of a user with 5 XP and no activity. -/
def lbUserA : LeaderboardUser :=
  { name := some "ada", totalXP := 5, level := 1, streak := 0,
    badges := [], lastActivity := none }

/-- A fresh progress record. -/
def baseProgress : UserProgress :=
  { userId := "u1", totalXP := 0, level := 1, currentStreak := 0,
    updatedAt := 0 }

/-! ## Helper lemmas about the grading loop -/

/-- An answer not found in the bank is skipped by the grading loop. -/
theorem gradeAnswers_skip (questions : List QuizQuestion)
    (a : SubmittedAnswer) (rest : List SubmittedAnswer)
    (h : findQuestion questions a.questionId = none) :
    gradeAnswers questions (a :: rest) = gradeAnswers questions rest := by
  simp [gradeAnswers, h]

/-- totalPoints is the sum of the points of the graded answers and
earnedPoints the sum over the correct ones. -/
theorem gradeAnswers_sums (questions : List QuizQuestion) :
    ∀ answers : List SubmittedAnswer,
      (gradeAnswers questions answers).1 =
        ((gradeAnswers questions answers).2.2.map (fun a => a.points)).sum ∧
      (gradeAnswers questions answers).2.1 =
        (((gradeAnswers questions answers).2.2.filter (fun a => a.correct)).map
          (fun a => a.points)).sum := by
  intro answers
  induction answers with
  | nil => simp [gradeAnswers]
  | cons a rest ih =>
    cases h : findQuestion questions a.questionId with
    | none => simpa [gradeAnswers_skip questions a rest h] using ih
    | some q =>
      rcases ih with ⟨ih1, ih2⟩
      by_cases hc : q.correctAnswer == a.selectedOption
      · simp [gradeAnswers, h, hc, List.filter_cons, ih1, ih2]
      · simp [gradeAnswers, h, hc, List.filter_cons, ih1, ih2]

/-- Dropping the unknown answers from a submission does not change the
grading result. -/
theorem gradeAnswers_filter_known (questions : List QuizQuestion) :
    ∀ answers : List SubmittedAnswer,
      gradeAnswers questions
        (answers.filter (fun a => (findQuestion questions a.questionId).isSome)) =
      gradeAnswers questions answers := by
  intro answers
  induction answers with
  | nil => rfl
  | cons a rest ih =>
    cases h : findQuestion questions a.questionId with
    | none =>
      rw [gradeAnswers_skip questions a rest h, ← ih]
      simp [List.filter_cons, h]
    | some q =>
      have hs : (findQuestion questions a.questionId).isSome = true := by
        simp [h]
      simp only [List.filter_cons, hs, if_pos]
      simp only [gradeAnswers, h, ih]

/-- Every graded answer references a question present in the bank. -/
theorem gradeAnswers_mem_known (questions : List QuizQuestion) :
    ∀ answers : List SubmittedAnswer,
      ∀ ga ∈ (gradeAnswers questions answers).2.2,
        (findQuestion questions ga.questionId).isSome = true := by
  intro answers
  induction answers with
  | nil => simp [gradeAnswers]
  | cons a rest ih =>
    cases h : findQuestion questions a.questionId with
    | none =>
      rw [gradeAnswers_skip questions a rest h]
      exact ih
    | some q =>
      intro ga hga
      simp only [gradeAnswers, h] at hga
      rcases List.mem_cons.1 hga with rfl | hmem
      · simp [h]
      · exact ih ga hmem

/-- Rounding half up on the ratio of two naturals is the natural
division (200e + t) / (2t): the executable characterization of the
percentage formula. -/
theorem mathRound_ratio (e t : Nat) (ht : t ≠ 0) :
    mathRound ((e : ℚ) / (t : ℚ) * 100) = (((200 * e + t) / (2 * t) : ℕ) : Int) := by
  have ht' : (t : ℚ) ≠ 0 := Nat.cast_ne_zero.2 ht
  have h1 : (e : ℚ) / (t : ℚ) * 100 + 1 / 2 =
      ((200 * e + t : ℕ) : ℚ) / ((2 * t : ℕ) : ℚ) := by
    push_cast
    field_simp
    ring
  unfold mathRound
  rw [h1, ← Int.natCast_floor_eq_floor (by positivity), Nat.floor_div_eq_div]

/-- A submission whose answers are all unknown grades to zero points and
an empty breakdown. -/
theorem gradeAnswers_all_unknown (questions : List QuizQuestion)
    (answers : List SubmittedAnswer)
    (h : ∀ a ∈ answers, findQuestion questions a.questionId = none) :
    gradeAnswers questions answers = (0, 0, []) := by
  induction answers with
  | nil => rfl
  | cons a rest ih =>
    rw [gradeAnswers_skip questions a rest (h a (List.mem_cons_self a rest))]
    exact ih fun x hx => h x (List.mem_cons_of_mem a hx)

/-! ## Claim theorems -/

/-- C1: for every quiz submission whose graded answers yield
totalPoints > 0, scoreQuiz succeeds with percentage equal to
round(earnedPoints / totalPoints * 100) and passed equal to
(percentage >= 70), where earnedPoints is the sum of the points of the
correctly answered questions and totalPoints the sum of the points of
all graded questions. -/
theorem scoreQuiz_percentage_round (questions : List QuizQuestion)
    (answers : List SubmittedAnswer) (t e : Nat) (g : List GradedAnswer)
    (hg : gradeAnswers questions answers = (t, e, g))
    (hne : questions ≠ []) (ht : t ≠ 0) :
    t = (g.map (fun a => a.points)).sum ∧
    e = ((g.filter (fun a => a.correct)).map (fun a => a.points)).sum ∧
    ∃ res, scoreQuiz questions answers = .ok res ∧
      res.totalPoints = t ∧ res.score = e ∧
      res.percentage = some (mathRound ((e : ℚ) / (t : ℚ) * 100)) ∧
      res.percentage = some (((200 * e + t) / (2 * t) : ℕ) : Int) ∧
      res.passed = decide ((70 : Int) ≤ mathRound ((e : ℚ) / (t : ℚ) * 100)) := by
  have hsums := gradeAnswers_sums questions answers
  rw [hg] at hsums
  refine ⟨hsums.1, hsums.2, ?_⟩
  have hempty : questions.isEmpty = false := by
    cases questions with
    | nil => exact absurd rfl hne
    | cons q qs => rfl
  refine ⟨{ score := e, totalPoints := t,
            percentage := some (mathRound ((e : ℚ) / (t : ℚ) * 100)),
            passed := decide ((70 : Int) ≤ mathRound ((e : ℚ) / (t : ℚ) * 100)),
            xpEarned :=
              if decide ((70 : Int) ≤ mathRound ((e : ℚ) / (t : ℚ) * 100)) then 15 else 0,
            answers := g,
            feedback := g.map
              (fun a => ⟨a.questionId, a.correct, a.explanation⟩) },
          ?_, rfl, rfl, rfl, ?_, rfl⟩
  · simp only [scoreQuiz, hempty, Bool.false_eq_true, if_false, hg]
    simp [ht]
  · rw [mathRound_ratio e t ht]

/-- Witness for C1: a two-question bank worth 10 points each, one answer
right and one wrong. -/
theorem scoreQuiz_percentage_round_witness :
    (20 : Nat) =
      (((gradeAnswers [sampleQ1, sampleQ2] [⟨"q1", 0⟩, ⟨"q2", 0⟩]).2.2.map
        (fun a => a.points)).sum) ∧
    (10 : Nat) =
      ((((gradeAnswers [sampleQ1, sampleQ2] [⟨"q1", 0⟩, ⟨"q2", 0⟩]).2.2.filter
        (fun a => a.correct)).map (fun a => a.points)).sum) ∧
    ∃ res, scoreQuiz [sampleQ1, sampleQ2] [⟨"q1", 0⟩, ⟨"q2", 0⟩] = .ok res ∧
      res.totalPoints = 20 ∧ res.score = 10 ∧
      res.percentage = some (mathRound ((10 : ℚ) / (20 : ℚ) * 100)) ∧
      res.percentage = some 50 ∧
      res.passed = decide ((70 : Int) ≤ mathRound ((10 : ℚ) / (20 : ℚ) * 100)) := by
  have h := scoreQuiz_percentage_round [sampleQ1, sampleQ2] [⟨"q1", 0⟩, ⟨"q2", 0⟩]
    20 10 (gradeAnswers [sampleQ1, sampleQ2] [⟨"q1", 0⟩, ⟨"q2", 0⟩]).2.2
    (by decide) (by decide) (by decide)
  simpa using h

/-- C3: a submission against a non-empty bank whose answers all
reference unknown questionIds grades to totalPoints = 0, and the
percentage computation is an unguarded 0/0: the result is the undefined
value (none, the embedded NaN), not a number such as 0, and passed is
false. -/
theorem scoreQuiz_zero_totalPoints_undefined (questions : List QuizQuestion)
    (answers : List SubmittedAnswer) (hne : questions ≠ [])
    (hunknown : ∀ a ∈ answers, findQuestion questions a.questionId = none) :
    ∃ res, scoreQuiz questions answers = .ok res ∧
      res.totalPoints = 0 ∧ res.percentage = none ∧
      res.percentage ≠ some 0 ∧ res.passed = false ∧ res.xpEarned = 0 := by
  have hg := gradeAnswers_all_unknown questions answers hunknown
  have hempty : questions.isEmpty = false := by
    cases questions with
    | nil => exact absurd rfl hne
    | cons q qs => rfl
  refine ⟨{ score := 0, totalPoints := 0, percentage := none, passed := false,
            xpEarned := 0, answers := [], feedback := [] },
          ?_, rfl, rfl, by simp, rfl, rfl⟩
  simp only [scoreQuiz, hempty, Bool.false_eq_true, if_false, hg]
  rfl

/-- Witness for C3: a one-question bank and a single answer whose
questionId does not occur in it. -/
theorem scoreQuiz_zero_totalPoints_undefined_witness :
    ∃ res, scoreQuiz [sampleQ1] [⟨"missing", 0⟩] = .ok res ∧
      res.totalPoints = 0 ∧ res.percentage = none ∧
      res.percentage ≠ some 0 ∧ res.passed = false ∧ res.xpEarned = 0 :=
  scoreQuiz_zero_totalPoints_undefined [sampleQ1] [⟨"missing", 0⟩]
    (by decide) (by decide)

/-- C9: answers referencing questionIds absent from the bank are
silently skipped: the grading result equals that of the submission with
the unknown answers removed, and every breakdown (and hence feedback)
entry references a question present in the bank. -/
theorem scoreQuiz_skips_unknown_answers (questions : List QuizQuestion)
    (answers : List SubmittedAnswer) :
    scoreQuiz questions answers =
      scoreQuiz questions
        (answers.filter (fun a => (findQuestion questions a.questionId).isSome)) ∧
    ∀ ga ∈ (gradeAnswers questions answers).2.2,
      (findQuestion questions ga.questionId).isSome = true := by
  refine ⟨?_, gradeAnswers_mem_known questions answers⟩
  simp only [scoreQuiz, gradeAnswers_filter_known questions answers]

/-- C2: after every operation that persists a progress record or awards
XP — the UserProgress pre-save hook, awardQuizXP (which persists), and
User.addXP — the stored level equals floor(totalXP / 500) + 1, in
particular at totalXP 0, 499, 500, 999 and 1000. -/
theorem level_totalXP_invariant :
    (∀ (p : UserProgress) (now : Millis),
      (preSaveHook p now).level = (preSaveHook p now).totalXP / 500 + 1) ∧
    (∀ (p : UserProgress) (xp : Nat) (now : Millis),
      (awardQuizXP p xp now).level = (awardQuizXP p xp now).totalXP / 500 + 1) ∧
    (∀ (u : User) (xp : Nat),
      (u.addXP xp).level = (u.addXP xp).totalXP / 500 + 1) ∧
    (∀ (p : UserProgress) (now : Millis),
      (p.totalXP = 0 → (preSaveHook p now).level = 1) ∧
      (p.totalXP = 499 → (preSaveHook p now).level = 1) ∧
      (p.totalXP = 500 → (preSaveHook p now).level = 2) ∧
      (p.totalXP = 999 → (preSaveHook p now).level = 2) ∧
      (p.totalXP = 1000 → (preSaveHook p now).level = 3)) := by
  refine ⟨fun p now => rfl, fun p xp now => rfl,
          fun u xp => rfl, fun p now => ?_⟩
  refine ⟨fun h => ?_, fun h => ?_, fun h => ?_, fun h => ?_, fun h => ?_⟩ <;>
    simp [preSaveHook, h]

/-- Witness for C2: the five listed totalXP values, and an XP award onto
485 XP landing exactly on the 500 boundary. -/
theorem level_totalXP_invariant_witness :
    (preSaveHook { baseProgress with totalXP := 0 } 0).level = 1 ∧
    (preSaveHook { baseProgress with totalXP := 499 } 0).level = 1 ∧
    (preSaveHook { baseProgress with totalXP := 500 } 0).level = 2 ∧
    (preSaveHook { baseProgress with totalXP := 999 } 0).level = 2 ∧
    (preSaveHook { baseProgress with totalXP := 1000 } 0).level = 3 ∧
    ({ baseUser with totalXP := 485 } : User).addXP 15 =
      { baseUser with totalXP := 500, level := 2 } := by
  refine ⟨(level_totalXP_invariant.2.2.2 _ 0).1 rfl,
          (level_totalXP_invariant.2.2.2 _ 0).2.1 rfl,
          (level_totalXP_invariant.2.2.2 _ 0).2.2.1 rfl,
          (level_totalXP_invariant.2.2.2 _ 0).2.2.2.1 rfl,
          (level_totalXP_invariant.2.2.2 _ 0).2.2.2.2 rfl, ?_⟩
  have h := level_totalXP_invariant.2.2.1 ({ baseUser with totalXP := 485 }) 15
  simp [User.addXP, User.calculateLevel] at h ⊢

/-- C5: isSubscriptionActive returns true iff the user is premium, the
expiry date is set, and now is strictly before it. -/
theorem isSubscriptionActive_iff (u : User) (now : Millis) :
    u.isSubscriptionActive now = true ↔
      (u.isPremium = true ∧
        ∃ t, u.subscriptionExpiresAt = some t ∧ now < t) := by
  cases hp : u.isPremium with
  | false => simp [User.isSubscriptionActive, hp]
  | true =>
    cases he : u.subscriptionExpiresAt with
    | none => simp [User.isSubscriptionActive, hp, he]
    | some t => simp [User.isSubscriptionActive, hp, he]

/-- C10: at now exactly equal to the expiry instant, both
isSubscriptionActive and isSubscriptionExpired are false (both
comparisons are strict), so checkAndDowngradePremium leaves the record
unchanged even though the subscription is no longer active. -/
theorem expiry_instant_boundary (u : User) (t : Millis)
    (h1 : u.isPremium = true) (h2 : u.subscriptionExpiresAt = some t) :
    u.isSubscriptionActive t = false ∧
    u.isSubscriptionExpired t = false ∧
    u.checkAndDowngradePremium t = u := by
  have ha : u.isSubscriptionActive t = false := by
    simp [User.isSubscriptionActive, h1, h2]
  have he : u.isSubscriptionExpired t = false := by
    simp [User.isSubscriptionExpired, h2]
  refine ⟨ha, he, ?_⟩
  simp [User.checkAndDowngradePremium, he]

/-- Witness for C10: a premium user probed exactly at the stored expiry
instant. -/
theorem expiry_instant_boundary_witness :
    premiumMonthlyUser.isSubscriptionActive 1000 = false ∧
    premiumMonthlyUser.isSubscriptionExpired 1000 = false ∧
    premiumMonthlyUser.checkAndDowngradePremium 1000 = premiumMonthlyUser :=
  expiry_instant_boundary premiumMonthlyUser 1000 rfl rfl

/-- C6 as amended: checkAndDowngradePremium downgrades an expired
premium record to exactly the same record with isPremium cleared,
subscriptionPlan reset to none and subscriptionExpiresAt cleared (every
other field unchanged), and leaves a non-premium or non-expired record
entirely unchanged; the read-time subscription-status path clears only
isPremium, leaving subscriptionPlan and subscriptionExpiresAt as
stored. -/
theorem checkAndDowngrade_postcondition_frame (u : User) (now t : Millis) :
    (u.isPremium = true → u.subscriptionExpiresAt = some t → t < now →
      u.checkAndDowngradePremium now =
        { u with isPremium := false, subscriptionPlan := "none",
                 subscriptionExpiresAt := none }) ∧
    (u.isPremium = false ∨ u.isSubscriptionExpired now = false →
      u.checkAndDowngradePremium now = u) ∧
    (u.isPremium = true → u.subscriptionExpiresAt = some t → t < now →
      (subscriptionStatusRoute u now).1 = { u with isPremium := false } ∧
      (subscriptionStatusRoute u now).1.subscriptionPlan = u.subscriptionPlan ∧
      (subscriptionStatusRoute u now).1.subscriptionExpiresAt =
        u.subscriptionExpiresAt) := by
  refine ⟨fun hp he hlt => ?_, fun h => ?_, fun hp he hlt => ?_⟩
  · have hexp : u.isSubscriptionExpired now = true := by
      simp [User.isSubscriptionExpired, he, hlt]
    simp [User.checkAndDowngradePremium, hp, hexp]
  · rcases h with hp | hexp
    · simp [User.checkAndDowngradePremium, hp]
    · simp [User.checkAndDowngradePremium, hexp]
  · simp [subscriptionStatusRoute, hp, he, hlt]

/-- Witness for C6: an expired monthly premium user, both through
checkAndDowngradePremium and through the subscription-status route, and
an unexpired one left unchanged. -/
theorem checkAndDowngrade_postcondition_frame_witness :
    premiumMonthlyUser.checkAndDowngradePremium 2000
      = { premiumMonthlyUser with
            isPremium := false
            subscriptionPlan := "none"
            subscriptionExpiresAt := none } ∧
    premiumMonthlyUser.checkAndDowngradePremium 500 = premiumMonthlyUser ∧
    (subscriptionStatusRoute premiumMonthlyUser 2000).1
      = { premiumMonthlyUser with isPremium := false } := by
  have h1 := (checkAndDowngrade_postcondition_frame
    premiumMonthlyUser 2000 1000).1 rfl rfl (by decide)
  have h2 := (checkAndDowngrade_postcondition_frame
    premiumMonthlyUser 500 1000).2.1 (Or.inr (by decide))
  have h3 := ((checkAndDowngrade_postcondition_frame
    premiumMonthlyUser 2000 1000).2.2 rfl rfl (by decide)).1
  exact ⟨h1, h2, h3⟩

/-- C6 counterexample: on the read-time subscription-status path an
expired premium record keeps its subscriptionPlan and
subscriptionExpiresAt; only isPremium is cleared, so the claimed full
downgrade postcondition fails there. -/
theorem subscriptionStatusRoute_isPremium_only_counterexample :
    premiumMonthlyUser.isPremium = true ∧
    premiumMonthlyUser.subscriptionExpiresAt = some 1000 ∧
    (1000 : Millis) < 2000 ∧
    (subscriptionStatusRoute premiumMonthlyUser 2000).1.isPremium = false ∧
    (subscriptionStatusRoute premiumMonthlyUser 2000).1.subscriptionPlan
      = "monthly" ∧
    (subscriptionStatusRoute premiumMonthlyUser 2000).1.subscriptionPlan
      ≠ "none" ∧
    (subscriptionStatusRoute premiumMonthlyUser 2000).1.subscriptionExpiresAt
      = some 1000 := by
  refine ⟨rfl, rfl, by decide, ?_, ?_, ?_, ?_⟩ <;>
    simp [subscriptionStatusRoute, premiumMonthlyUser, baseUser]

/-- C7: the streak update is a pure function of (lastActivity, now): no
prior activity gives streak 1; an elapsed-day count of 0 (floor-division
of milliseconds) leaves the record untouched; exactly 1 increments the
streak; more than 1 resets it to 1; lastActivity is stamped with now on
every branch except the unchanged same-day branch. -/
theorem updateStreak_branch_spec (u : User) (now last : Millis) :
    (u.lastActivity = none →
      u.updateStreak now = { u with streak := 1, lastActivity := some now }) ∧
    (u.lastActivity = some last → (now - last).fdiv 86400000 = 0 →
      u.updateStreak now = u) ∧
    (u.lastActivity = some last → (now - last).fdiv 86400000 = 1 →
      u.updateStreak now =
        { u with streak := u.streak + 1, lastActivity := some now }) ∧
    (u.lastActivity = some last → 1 < (now - last).fdiv 86400000 →
      u.updateStreak now = { u with streak := 1, lastActivity := some now }) := by
  refine ⟨fun h => ?_, fun h hd => ?_, fun h hd => ?_, fun h hd => ?_⟩
  · simp [User.updateStreak, h]
  · simp [User.updateStreak, h, hd]
  · simp [User.updateStreak, h, hd]
  · have h0 : (now - last).fdiv 86400000 ≠ 0 := by omega
    have h1 : (now - last).fdiv 86400000 ≠ 1 := by omega
    simp [User.updateStreak, h, h0, h1]

/-- Witness for C7: first-ever activity, then day boundaries at
23h59m (same floor-day), exactly 24h (one floor-day), and 49h (two
floor-days). -/
theorem updateStreak_branch_spec_witness :
    ({ baseUser with streak := 3, lastActivity := none } : User).updateStreak 500
      = { baseUser with streak := 1, lastActivity := some 500 } ∧
    ({ baseUser with streak := 3, lastActivity := some 0 } : User).updateStreak
        86340000
      = { baseUser with streak := 3, lastActivity := some 0 } ∧
    ({ baseUser with streak := 3, lastActivity := some 0 } : User).updateStreak
        86400000
      = { baseUser with streak := 4, lastActivity := some 86400000 } ∧
    ({ baseUser with streak := 3, lastActivity := some 0 } : User).updateStreak
        176400000
      = { baseUser with streak := 1, lastActivity := some 176400000 } := by
  refine ⟨(updateStreak_branch_spec _ 500 0).1 rfl,
          (updateStreak_branch_spec _ 86340000 0).2.1 rfl (by decide),
          ?_,
          (updateStreak_branch_spec _ 176400000 0).2.2.2 rfl (by decide)⟩
  have h := (updateStreak_branch_spec
    ({ baseUser with streak := 3, lastActivity := some 0 } : User)
    86400000 0).2.2.1 rfl (by decide)
  simpa using h

/-- C4 counterexample: a no-longer-premium user whose completedModules
already contains the premium module social-engineering receives the
premium-gate rejection, not the already-completed signal (the premium
check runs first); the state is still unchanged. -/
theorem completeModuleRoute_premium_gate_counterexample :
    "social-engineering" ∈
      ({ baseUser with completedModules := ["social-engineering"] } :
        User).completedModules ∧
    (completeModuleRoute
        { baseUser with completedModules := ["social-engineering"] }
        "social-engineering" 0).1 = CompleteResponse.premiumRequired ∧
    (completeModuleRoute
        { baseUser with completedModules := ["social-engineering"] }
        "social-engineering" 0).1 ≠ CompleteResponse.alreadyCompleted := by
  refine ⟨by decide, by decide, by decide⟩

/-- C4 as amended: for every moduleId already contained in the
completedModules of the user, the complete route leaves the record (hence
totalXP and completedModules) entirely unchanged; and whenever the
moduleId is a valid MODULES key whose premium gate passes (free module,
or premium user), the response is the already-completed signal rather
than a second XP award. -/
theorem completeModuleRoute_idempotent_xp (u : User) (moduleId : String)
    (now : Millis) (h : u.completedModules.contains moduleId = true) :
    (completeModuleRoute u moduleId now).2 = u ∧
    (∀ m, lookupModule moduleId = some m →
      (m.premium = false ∨ u.isPremium = true) →
      (completeModuleRoute u moduleId now).1 =
        CompleteResponse.alreadyCompleted) := by
  have hmem : moduleId ∈ u.completedModules := by
    simpa using h
  by_cases hempty : moduleId = ""
  · subst hempty
    refine ⟨by simp [completeModuleRoute], fun m hm => ?_⟩
    have hnone : lookupModule "" = none := by decide
    simp [hnone] at hm
  · cases hl : lookupModule moduleId with
    | none =>
      refine ⟨by simp [completeModuleRoute, hempty, hl], fun m hm => ?_⟩
      simp at hm
    | some m =>
      by_cases hgate : m.premium && !u.isPremium
      · refine ⟨by simp [completeModuleRoute, hempty, hl, hgate],
                fun m' hm' hok => ?_⟩
        injection hm' with hm'
        subst hm'
        rcases hok with hfree | hprem
        · simp [hfree] at hgate
        · simp [hprem] at hgate
      · constructor
        · simp [completeModuleRoute, hempty, hl, hgate, hmem]
        · intro m' hm' hok
          simp [completeModuleRoute, hempty, hl, hgate, hmem]

/-- Witness for C4: a free module already completed is reported as
already completed and the user is unchanged. -/
theorem completeModuleRoute_idempotent_xp_witness :
    (completeModuleRoute
        { baseUser with completedModules := ["phishing-basics"] }
        "phishing-basics" 0).2
      = { baseUser with completedModules := ["phishing-basics"] } ∧
    (completeModuleRoute
        { baseUser with completedModules := ["phishing-basics"] }
        "phishing-basics" 0).1 = CompleteResponse.alreadyCompleted := by
  have h := completeModuleRoute_idempotent_xp
    { baseUser with completedModules := ["phishing-basics"] }
    "phishing-basics" 0 (by decide)
  exact ⟨h.1, h.2 ⟨10, false, "Phishing Awareness 101"⟩ (by decide)
    (Or.inl rfl)⟩

/-- Ranking preserves the totalXP sequence. -/
theorem rankUsers_map_totalXP :
    ∀ (i : Nat) (us : List LeaderboardUser),
      (rankUsers i us).map (fun e => e.totalXP) = us.map (fun u => u.totalXP) := by
  intro i us
  induction us generalizing i with
  | nil => rfl
  | cons u rest ih => simp [rankUsers, ih]

/-- The ranks produced by rankUsers are the consecutive positions
starting at i + 1. -/
theorem rankUsers_map_rank :
    ∀ (i : Nat) (us : List LeaderboardUser),
      (rankUsers i us).map (fun e => e.rank) = List.range' (i + 1) us.length := by
  intro i us
  induction us generalizing i with
  | nil => rfl
  | cons u rest ih => simp [rankUsers, ih, List.range'_succ]

/-- Ranking preserves length. -/
theorem rankUsers_length :
    ∀ (i : Nat) (us : List LeaderboardUser),
      (rankUsers i us).length = us.length := by
  intro i us
  induction us generalizing i with
  | nil => rfl
  | cons u rest ih => simp [rankUsers, ih]

/-- The leaderboard comparator is transitive. -/
theorem xpDescLE_trans (a b c : LeaderboardUser)
    (h1 : xpDescLE a b = true) (h2 : xpDescLE b c = true) :
    xpDescLE a c = true := by
  simp only [xpDescLE, decide_eq_true_eq] at h1 h2 ⊢
  exact le_trans h2 h1

/-- The leaderboard comparator is total. -/
theorem xpDescLE_total (a b : LeaderboardUser) :
    (xpDescLE a b || xpDescLE b a) = true := by
  simp only [xpDescLE, Bool.or_eq_true, decide_eq_true_eq]
  exact Nat.le_total b.totalXP a.totalXP

/-- The leaderboard route unfolded: ranks over the sorted window, taken
to maxLimit unless maxLimit is 0, in which case no limit applies. -/
theorem getLeaderboard_eq (users : List LeaderboardUser) (timeframe : String)
    (limitParam : Option Nat) (now : Millis) :
    getLeaderboard users timeframe limitParam now =
      rankUsers 0
        (if min (limitParam.getD 50) 100 = 0 then
          (users.filter (inWindow timeframe now)).mergeSort xpDescLE
        else
          ((users.filter (inWindow timeframe now)).mergeSort xpDescLE).take
            (min (limitParam.getD 50) 100)) := rfl

/-- C8 counterexample: at the reachable query limit = 0 (parseInt of the
string 0), .limit(0) applies no limit, so 101 users produce 101
leaderboard entries, exceeding both the parsed result-size limit and
the claimed hard cap of 100. -/
theorem leaderboard_limit_zero_counterexample :
    min ((some 0 : Option Nat).getD 50) 100 = 0 ∧
    (getLeaderboard (List.replicate 101 lbUserA) "all" (some 0) 0).length
      = 101 ∧
    100 < (getLeaderboard (List.replicate 101 lbUserA) "all" (some 0) 0).length := by
  have hall : ∀ v, inWindow "all" (0 : Millis) v = true := fun v => rfl
  have hfilter : (List.replicate 101 lbUserA).filter (inWindow "all" 0) =
      List.replicate 101 lbUserA :=
    List.filter_eq_self.mpr (fun a _ => hall a)
  have hlen :
      (getLeaderboard (List.replicate 101 lbUserA) "all" (some 0) 0).length
        = 101 := by
    rw [getLeaderboard_eq,
        if_pos (show min ((some 0 : Option Nat).getD 50) 100 = 0 from rfl),
        rankUsers_length, (List.mergeSort_perm _ _).length_eq, hfilter,
        List.length_replicate]
  exact ⟨rfl, hlen, by rw [hlen]; decide⟩

/-- C8 as amended: every leaderboard result is sorted by totalXP in
non-increasing order and its ranks are exactly 1..N for the N returned
entries; when the parsed limit is nonzero (in particular for the
default of 50), N never exceeds min(limit, 100); when the parsed limit
is 0, MongoDB applies no limit and every user passing the window filter
is returned. -/
theorem leaderboard_sorted_ranked_capped (users : List LeaderboardUser)
    (timeframe : String) (limitParam : Option Nat) (now : Millis) :
    List.Pairwise (fun a b => b.totalXP ≤ a.totalXP)
      (getLeaderboard users timeframe limitParam now) ∧
    (getLeaderboard users timeframe limitParam now).map (fun e => e.rank) =
      List.range' 1 (getLeaderboard users timeframe limitParam now).length ∧
    (min (limitParam.getD 50) 100 ≠ 0 →
      (getLeaderboard users timeframe limitParam now).length ≤
        min (limitParam.getD 50) 100 ∧
      (getLeaderboard users timeframe limitParam now).length ≤ 100) ∧
    (min (limitParam.getD 50) 100 = 0 →
      (getLeaderboard users timeframe limitParam now).length =
        (users.filter (inWindow timeframe now)).length) := by
  set maxLimit := min (limitParam.getD 50) 100 with hmax
  set sorted := ((users.filter (inWindow timeframe now)).mergeSort xpDescLE)
    with hsorteddef
  set limited := (if maxLimit = 0 then sorted else sorted.take maxLimit)
    with hlimited
  have hlb : getLeaderboard users timeframe limitParam now = rankUsers 0 limited := by
    rfl
  have hms2 : List.Pairwise
      (fun a b : LeaderboardUser => b.totalXP ≤ a.totalXP) sorted := by
    have hms := List.sorted_mergeSort xpDescLE_trans xpDescLE_total
      (users.filter (inWindow timeframe now))
    refine hms.imp ?_
    intro a b hab
    simpa [xpDescLE] using hab
  have hsorted :
      List.Pairwise (fun a b : LeaderboardUser => b.totalXP ≤ a.totalXP)
        limited := by
    by_cases h0 : maxLimit = 0
    · rw [hlimited, if_pos h0]
      exact hms2
    · rw [hlimited, if_neg h0]
      exact List.Pairwise.sublist (List.take_sublist maxLimit sorted) hms2
  refine ⟨?_, ?_, ?_, ?_⟩
  · rw [hlb]
    have hmap :
        List.Pairwise (fun a b : Nat => b ≤ a)
          ((rankUsers 0 limited).map (fun e => e.totalXP)) := by
      rw [rankUsers_map_totalXP]
      exact List.pairwise_map.2 hsorted
    have := List.pairwise_map.1 hmap
    exact this
  · rw [hlb, rankUsers_map_rank, rankUsers_length]
  · intro h0
    rw [hlb, rankUsers_length, hlimited, if_neg h0, List.length_take]
    constructor
    · exact min_le_left _ _
    · calc min maxLimit sorted.length ≤ maxLimit := min_le_left _ _
      _ ≤ 100 := min_le_right _ _
  · intro h0
    rw [hlb, rankUsers_length, hlimited, if_pos h0, hsorteddef,
        (List.mergeSort_perm _ _).length_eq]

/-- Witness for C8: three users under the default limit of 50, and the
same three users returned in full at the no-limit parsed value 0. -/
theorem leaderboard_sorted_ranked_capped_witness :
    (getLeaderboard [lbUserA, lbUserA, lbUserA] "all" none 0).length ≤
      min ((none : Option Nat).getD 50) 100 ∧
    (getLeaderboard [lbUserA, lbUserA, lbUserA] "all" none 0).length ≤ 100 ∧
    (getLeaderboard [lbUserA, lbUserA, lbUserA] "all" (some 0) 0).length =
      ([lbUserA, lbUserA, lbUserA].filter (inWindow "all" 0)).length := by
  have h1 := (leaderboard_sorted_ranked_capped [lbUserA, lbUserA, lbUserA]
    "all" none 0).2.2.1 (by decide)
  have h2 := (leaderboard_sorted_ranked_capped [lbUserA, lbUserA, lbUserA]
    "all" (some 0) 0).2.2.2 (by decide)
  exact ⟨h1.1, h1.2, h2⟩

end AwareGuard
